import Mathlib

/-!
Shallow embedding of `src/Source/SceneManager.cpp` (CS-330 scene manager).

The embedded fragment covers the texture-slot registry
(`CreateGLTexture`, `BindGLTextures`, `DestroyGLTextures`,
`FindTextureID`, `FindTextureSlot`), the material list (`FindMaterial`),
the transform composition (`SetTransformations`) and the shader-uniform
setters (`SetShaderColor`, `SetShaderTexture`, `SetTextureUVScale`).

Modelling conventions:
* The fixed C array `TEXTURE_INFO m_textureIDs[16]` is modelled as a total
  function `Nat → TEXTURE_INFO`; indices `0..15` correspond to the real
  array cells and `TEXTURE_CAPACITY = 16` records the real bound, so an
  access at index `≥ 16` in the model marks an out-of-bounds access of the
  C++ array.
* OpenGL texture names produced by `glGenTextures` are modelled by a
  counter `nextTextureName` carried in the state (GL names are positive
  integers handed out fresh); GL side effects are recorded in an explicit
  trace of `GLCall` values.
* `float` material coefficients are modelled by `ℚ`: `FindMaterial` only
  copies them, no float arithmetic occurs.
* The image decode performed by `stbi_load` is an external collaborator:
  its result is passed in as `Option IMAGE_DATA` (`none` = decode failure),
  holding width, height and channel count as the source uses them.
* `m_pShaderManager` may be `NULL`; the state stores `hasShader : Bool`
  and uniform writes are recorded in a `ShaderWrite` trace.
-/

/-- `TEXTURE_INFO` struct: `{ std::string tag; GLuint ID; }`.  The `ID`
field is read back through `int` in `FindTextureID`, and the constructor
stores `-1` in it, so it is modelled as `Int`. -/
structure TEXTURE_INFO where
  tag : String
  ID : Int
deriving DecidableEq, Repr

/-- `OBJECT_MATERIAL` struct with its five reflectance fields and tag. -/
structure OBJECT_MATERIAL where
  ambientColor : ℚ × ℚ × ℚ
  ambientStrength : ℚ
  diffuseColor : ℚ × ℚ × ℚ
  specularColor : ℚ × ℚ × ℚ
  shininess : ℚ
  tag : String
deriving DecidableEq, Repr

/-- Decoded image as returned by the `stbi_load` collaborator: width,
height and channel count (the pixel buffer itself is opaque to the
registry logic). -/
structure IMAGE_DATA where
  width : Nat
  height : Nat
  channels : Nat
deriving DecidableEq, Repr

/-- GL calls issued by the scene manager, recorded as a trace. -/
inductive GLCall where
  | genTextures
  | bindTexture (id : Int)
  | texParameteri
  | texImage2D (channels : Nat)
  | generateMipmap
  | activeTexture (unit : Nat)
  | deleteTextures (id : Int)
deriving DecidableEq, Repr

/-- The size of the fixed array `m_textureIDs[16]`. -/
def TEXTURE_CAPACITY : Nat := 16

/-- The mutable state of a `SceneManager` object (plus the modelled GL
texture-name allocator). -/
structure SceneState where
  textureIDs : Nat → TEXTURE_INFO
  loadedTextures : Nat
  objectMaterials : List OBJECT_MATERIAL
  nextTextureName : Int
  hasShader : Bool

/-- The constructor `SceneManager::SceneManager`: every slot gets
`tag = "/0"`, `ID = -1`, and `m_loadedTextures = 0`; the material list
starts empty.  (The model initialises all indices of the total function;
the C++ loop initialises exactly indices `0..15`.) -/
def initialState (hasShader : Bool) : SceneState :=
  { textureIDs := fun _ => { tag := "/0", ID := -1 }
    loadedTextures := 0
    objectMaterials := []
    nextTextureName := 1
    hasShader := hasShader }

/-- `SceneManager::CreateGLTexture`.  Decode failure returns `false` with
nothing changed.  An unsupported channel count returns `false` after the
`glGenTextures`/`glBindTexture`/`glTexParameteri` calls already issued,
leaving the registry untouched.  Otherwise the texture is uploaded and the
slot at index `m_loadedTextures` is overwritten — with no capacity check,
exactly as in the source. -/
def CreateGLTexture (image : Option IMAGE_DATA) (tag : String)
    (st : SceneState) : Bool × SceneState × List GLCall :=
  match image with
  | none => (false, st, [])
  | some img =>
    let textureID := st.nextTextureName
    let pre : List GLCall :=
      [GLCall.genTextures, GLCall.bindTexture textureID,
       GLCall.texParameteri, GLCall.texParameteri,
       GLCall.texParameteri, GLCall.texParameteri]
    let stGen := { st with nextTextureName := st.nextTextureName + 1 }
    if img.channels = 3 ∨ img.channels = 4 then
      let stDone :=
        { stGen with
          textureIDs := fun j =>
            if j = st.loadedTextures then { tag := tag, ID := textureID }
            else st.textureIDs j
          loadedTextures := st.loadedTextures + 1 }
      (true, stDone,
       pre ++ [GLCall.texImage2D img.channels, GLCall.generateMipmap,
               GLCall.bindTexture 0])
    else
      (false, stGen, pre)

/-- `SceneManager::BindGLTextures`: binds slot `i` to texture unit `i`
for every filled slot. -/
def BindGLTextures (st : SceneState) : List GLCall :=
  (List.range st.loadedTextures).flatMap fun i =>
    [GLCall.activeTexture i, GLCall.bindTexture ((st.textureIDs i).ID)]

/-- The loop body of `SceneManager::DestroyGLTextures`: for each filled
slot the source calls `glGenTextures(1, &m_textureIDs[i].ID)`, i.e. it
GENERATES a fresh texture name into the slot (it never issues a delete). -/
def destroyGLTexturesAux (st : SceneState) (index : Nat) :
    SceneState × List GLCall :=
  if h : index < st.loadedTextures then
    let newName := st.nextTextureName
    let st' :=
      { st with
        textureIDs := fun j =>
          if j = index then { st.textureIDs index with ID := newName }
          else st.textureIDs j
        nextTextureName := st.nextTextureName + 1 }
    let rest := destroyGLTexturesAux st' (index + 1)
    (rest.1, GLCall.genTextures :: rest.2)
  else
    (st, [])
termination_by st.loadedTextures - index

/-- `SceneManager::DestroyGLTextures`. -/
def DestroyGLTextures (st : SceneState) : SceneState × List GLCall :=
  destroyGLTexturesAux st 0

/-- The `while` loop of `SceneManager::FindTextureID`: linear scan of the
filled prefix, first match wins, `-1` when not found. -/
def findTextureIDAux (st : SceneState) (tag : String) (index : Nat) : Int :=
  if _h : index < st.loadedTextures then
    if (st.textureIDs index).tag = tag then (st.textureIDs index).ID
    else findTextureIDAux st tag (index + 1)
  else
    -1
termination_by st.loadedTextures - index

/-- `SceneManager::FindTextureID`. -/
def FindTextureID (st : SceneState) (tag : String) : Int :=
  findTextureIDAux st tag 0

/-- The `while` loop of `SceneManager::FindTextureSlot`: linear scan of
the filled prefix, first match wins, `-1` when not found. -/
def findTextureSlotAux (st : SceneState) (tag : String) (index : Nat) : Int :=
  if _h : index < st.loadedTextures then
    if (st.textureIDs index).tag = tag then (index : Int)
    else findTextureSlotAux st tag (index + 1)
  else
    -1
termination_by st.loadedTextures - index

/-- `SceneManager::FindTextureSlot`. -/
def FindTextureSlot (st : SceneState) (tag : String) : Int :=
  findTextureSlotAux st tag 0

/-- Field-wise copy performed inside `FindMaterial` when a tag matches:
the five reflectance fields are copied into the caller's record; the
caller's `tag` field is NOT written. -/
def copyMaterialFields (src dst : OBJECT_MATERIAL) : OBJECT_MATERIAL :=
  { dst with
    ambientColor := src.ambientColor
    ambientStrength := src.ambientStrength
    diffuseColor := src.diffuseColor
    specularColor := src.specularColor
    shininess := src.shininess }

/-- The `while` loop of `SceneManager::FindMaterial`: scans the list; on
the first tag match it copies the five fields into `material` and stops;
if no entry matches, `material` is returned as it came in. -/
def findMaterialAux (mats : List OBJECT_MATERIAL) (tag : String)
    (material : OBJECT_MATERIAL) (index : Nat) : OBJECT_MATERIAL :=
  if h : index < mats.length then
    if (mats.get ⟨index, h⟩).tag = tag then
      copyMaterialFields (mats.get ⟨index, h⟩) material
    else findMaterialAux mats tag material (index + 1)
  else
    material
termination_by mats.length - index

/-- `SceneManager::FindMaterial`: returns `false` (leaving `material`
untouched) when the list is empty, and otherwise ALWAYS returns `true`,
whether or not any tag matched. -/
def FindMaterial (st : SceneState) (tag : String)
    (material : OBJECT_MATERIAL) : Bool × OBJECT_MATERIAL :=
  if st.objectMaterials.length = 0 then
    (false, material)
  else
    (true, findMaterialAux st.objectMaterials tag material 0)

/-!
Transform composition and shader-uniform setters.  `glm` scalars are
`float`; the model is parametric in a field `K` together with abstract
cosine/sine functions `co se : K → K` and the constant `pi : K`, so the
real-number instantiation `K = ℝ`, `co = Real.cos`, `se = Real.sin` is
the idealised (exact-arithmetic) semantics of the source.
-/

/-- A uniform write pushed through the `ShaderManager` collaborator. -/
inductive ShaderWrite (K : Type) where
  | mat4Value (name : String) (value : Matrix (Fin 4) (Fin 4) K)
  | intValue (name : String) (value : Int)
  | vec4Value (name : String) (value : K × K × K × K)
  | vec2Value (name : String) (value : K × K)
  | sampler2DValue (name : String) (value : Int)

section Transforms

variable {K : Type} [Field K]

/-- `glm::radians`: degrees times `pi / 180`. -/
def glmRadians (pi degrees : K) : K := degrees * (pi / 180)

/-- `glm::scale(v)`: the diagonal matrix `diag(sx, sy, sz, 1)`. -/
def glmScale (v : K × K × K) : Matrix (Fin 4) (Fin 4) K :=
  Matrix.diagonal ![v.1, v.2.1, v.2.2, 1]

/-- `glm::translate(t)`: identity with `(tx, ty, tz)` in the last column
(column-vector convention, as glm uses). -/
def glmTranslate (t : K × K × K) : Matrix (Fin 4) (Fin 4) K :=
  !![1, 0, 0, t.1;
     0, 1, 0, t.2.1;
     0, 0, 1, t.2.2;
     0, 0, 0, 1]

/-- `glm::rotate(angle, vec3(1,0,0))` evaluated at cosine `c` and sine
`s` of the angle: rotation about the X axis. -/
def glmRotateX (c s : K) : Matrix (Fin 4) (Fin 4) K :=
  !![1, 0,  0, 0;
     0, c, -s, 0;
     0, s,  c, 0;
     0, 0,  0, 1]

/-- `glm::rotate(angle, vec3(0,1,0))` evaluated at cosine `c` and sine
`s` of the angle: rotation about the Y axis. -/
def glmRotateY (c s : K) : Matrix (Fin 4) (Fin 4) K :=
  !![ c, 0, s, 0;
      0, 1, 0, 0;
     -s, 0, c, 0;
      0, 0, 0, 1]

/-- `glm::rotate(angle, vec3(0,0,1))` evaluated at cosine `c` and sine
`s` of the angle: rotation about the Z axis. -/
def glmRotateZ (c s : K) : Matrix (Fin 4) (Fin 4) K :=
  !![c, -s, 0, 0;
     s,  c, 0, 0;
     0,  0, 1, 0;
     0,  0, 0, 1]

/-- `SceneManager::SetTransformations`: builds scale, per-axis rotations
(degrees converted to radians) and translation, composes
`translation * rotationX * rotationY * rotationZ * scale`, and pushes it
to the `"model"` uniform when the shader manager is non-null. -/
def SetTransformations (co se : K → K) (pi : K)
    (scaleXYZ : K × K × K) (XrotationDegrees YrotationDegrees
    ZrotationDegrees : K) (positionXYZ : K × K × K)
    (st : SceneState) : SceneState × List (ShaderWrite K) :=
  let scale := glmScale scaleXYZ
  let rotationX := glmRotateX (co (glmRadians pi XrotationDegrees))
    (se (glmRadians pi XrotationDegrees))
  let rotationY := glmRotateY (co (glmRadians pi YrotationDegrees))
    (se (glmRadians pi YrotationDegrees))
  let rotationZ := glmRotateZ (co (glmRadians pi ZrotationDegrees))
    (se (glmRadians pi ZrotationDegrees))
  let translation := glmTranslate positionXYZ
  let modelView := translation * rotationX * rotationY * rotationZ * scale
  if st.hasShader then
    (st, [ShaderWrite.mat4Value "model" modelView])
  else
    (st, [])

/-- `SceneManager::SetShaderColor`: pushes `bUseTexture := false` and the
color vector when the shader manager is non-null. -/
def SetShaderColor (redColorValue greenColorValue blueColorValue
    alphaValue : K) (st : SceneState) :
    SceneState × List (ShaderWrite K) :=
  if st.hasShader then
    (st, [ShaderWrite.intValue "bUseTexture" 0,
          ShaderWrite.vec4Value "objectColor"
            (redColorValue, greenColorValue, blueColorValue, alphaValue)])
  else
    (st, [])

/-- `SceneManager::SetShaderTexture`: pushes `bUseTexture := true` and
the slot index resolved by `FindTextureSlot` (possibly the `-1` sentinel)
when the shader manager is non-null. -/
def SetShaderTexture (textureTag : String) (st : SceneState) :
    SceneState × List (ShaderWrite K) :=
  if st.hasShader then
    (st, [ShaderWrite.intValue "bUseTexture" 1,
          ShaderWrite.sampler2DValue "objectTexture"
            (FindTextureSlot st textureTag)])
  else
    (st, [])

/-- `SceneManager::SetTextureUVScale`: pushes the `"UVscale"` vector when
the shader manager is non-null. -/
def SetTextureUVScale (u v : K) (st : SceneState) :
    SceneState × List (ShaderWrite K) :=
  if st.hasShader then
    (st, [ShaderWrite.vec2Value "UVscale" (u, v)])
  else
    (st, [])

end Transforms

/-!
Registration runs: a sequence of `CreateGLTexture` calls starting from a
freshly constructed manager, used to speak about "the number of
successful registrations performed so far".
-/

/-- One registration request: the decode result the image collaborator
will deliver for the file, and the tag to register it under. -/
def registerStep (st : SceneState) (req : Option IMAGE_DATA × String) :
    SceneState :=
  (CreateGLTexture req.1 req.2 st).2.1

/-- Run a sequence of `CreateGLTexture` calls from the initial state. -/
def runRegistrations (reqs : List (Option IMAGE_DATA × String)) :
    SceneState :=
  reqs.foldl registerStep (initialState true)

/-- Whether a single registration request succeeds (`CreateGLTexture`
returns `true`): the decode must succeed with 3 or 4 channels; this does
not depend on the registry state. -/
def requestSucceeds (req : Option IMAGE_DATA × String) : Bool :=
  match req.1 with
  | none => false
  | some img => img.channels = 3 ∨ img.channels = 4

/-- The number of successful registrations in a request sequence. -/
def successCount (reqs : List (Option IMAGE_DATA × String)) : Nat :=
  reqs.countP requestSucceeds

/-- Recogniser for `glDeleteTextures` calls in a GL trace. -/
def isDeleteCall : GLCall → Bool
  | GLCall.deleteTextures _ => true
  | _ => false

/-- Sixteen registration requests with valid 3-channel images: enough to
fill the texture table exactly to its capacity. -/
def capacityRequests : List (Option IMAGE_DATA × String) :=
  (List.range TEXTURE_CAPACITY).map fun i =>
    (some { width := 4, height := 4, channels := 3 }, toString i)

/-- A sample 3-channel (RGB) decode result. -/
def rgbImage : IMAGE_DATA := { width := 4, height := 4, channels := 3 }

/-- A sample 4-channel (RGBA) decode result. -/
def rgbaImage : IMAGE_DATA := { width := 4, height := 4, channels := 4 }

/-- A sample 2-channel (gray + alpha) decode result, unsupported by
`CreateGLTexture`. -/
def grayImage : IMAGE_DATA := { width := 4, height := 4, channels := 2 }

/-- A sample material record tagged `"wood"`, used in concrete checks. -/
def woodMaterial : OBJECT_MATERIAL :=
  { ambientColor := (1, 1, 1)
    ambientStrength := 1
    diffuseColor := (1, 1, 1)
    specularColor := (1, 1, 1)
    shininess := 8
    tag := "wood" }

/-- A sample stale record as a caller might hand it to `FindMaterial`. -/
def staleMaterial : OBJECT_MATERIAL :=
  { ambientColor := (0, 0, 0)
    ambientStrength := 0
    diffuseColor := (0, 0, 0)
    specularColor := (0, 0, 0)
    shininess := 0
    tag := "stale" }

/-!  Helper lemmas about the linear-scan loops.  -/

/-- Full characterisation of the `FindTextureSlot` loop from an arbitrary
start index: it returns `-1` exactly when no filled slot from `index` on
carries the tag, and otherwise the first matching index. -/
theorem findTextureSlotAux_cases (st : SceneState) (tag : String)
    (index : Nat) :
    (findTextureSlotAux st tag index = -1 ∧
      ∀ i, index ≤ i → i < st.loadedTextures →
        (st.textureIDs i).tag ≠ tag) ∨
    (∃ n : Nat, findTextureSlotAux st tag index = (n : Int) ∧
      index ≤ n ∧ n < st.loadedTextures ∧ (st.textureIDs n).tag = tag ∧
      ∀ i, index ≤ i → i < n → (st.textureIDs i).tag ≠ tag) := by
  induction index using findTextureSlotAux.induct st tag with
  | case1 index h heq =>
    right
    refine ⟨index, ?_, le_refl _, h, heq, fun i h1 h2 => absurd h1 (by omega)⟩
    rw [findTextureSlotAux]
    simp [h, heq]
  | case2 index h heq ih =>
    have hstep : findTextureSlotAux st tag index =
        findTextureSlotAux st tag (index + 1) := by
      rw [findTextureSlotAux]
      simp [h, heq]
    rcases ih with ⟨hval, hnone⟩ | ⟨n, hval, hle, hlt, htag, hfirst⟩
    · left
      refine ⟨hstep.trans hval, fun i h1 h2 => ?_⟩
      rcases Nat.eq_or_lt_of_le h1 with rfl | h1
      · exact heq
      · exact hnone i h1 h2
    · right
      refine ⟨n, hstep.trans hval, by omega, hlt, htag, fun i h1 h2 => ?_⟩
      rcases Nat.eq_or_lt_of_le h1 with rfl | h1
      · exact heq
      · exact hfirst i h1 h2
  | case3 index h =>
    left
    constructor
    · rw [findTextureSlotAux]; simp [h]
    · intro i _ h2; exact absurd h2 (by omega)

/-- When the `FindTextureSlot` loop reports not-found, the `FindTextureID`
loop (same control flow) reports not-found as well. -/
theorem findTextureIDAux_of_slot_none (st : SceneState) (tag : String)
    (index : Nat) (hnone : ∀ i, index ≤ i → i < st.loadedTextures →
      (st.textureIDs i).tag ≠ tag) :
    findTextureIDAux st tag index = -1 := by
  induction index using findTextureIDAux.induct st tag with
  | case1 index h heq =>
    exact absurd heq (hnone index (le_refl _) h)
  | case2 index h heq ih =>
    rw [findTextureIDAux]
    simp only [h, dif_pos, heq, if_neg, if_false]
    exact ih fun i h1 h2 => hnone i (by omega) h2
  | case3 index h =>
    rw [findTextureIDAux]; simp [h]

/-- When the `FindTextureSlot` loop finds the first match at `n`, the
`FindTextureID` loop returns the ID stored in slot `n`. -/
theorem findTextureIDAux_of_slot_found (st : SceneState) (tag : String)
    (index n : Nat) (hle : index ≤ n) (hlt : n < st.loadedTextures)
    (htag : (st.textureIDs n).tag = tag)
    (hfirst : ∀ i, index ≤ i → i < n → (st.textureIDs i).tag ≠ tag) :
    findTextureIDAux st tag index = (st.textureIDs n).ID := by
  induction index using findTextureIDAux.induct st tag with
  | case1 index h heq =>
    have : index = n := by
      by_contra hne
      exact hfirst index (le_refl _) (by omega) heq
    subst this
    rw [findTextureIDAux]
    simp [h, heq]
  | case2 index h heq ih =>
    have hne : index ≠ n := fun he => heq (he ▸ htag)
    rw [findTextureIDAux]
    simp only [h, dif_pos, heq, if_neg, if_false]
    exact ih (by omega) fun i h1 h2 => hfirst i (by omega) h2
  | case3 index h =>
    exact absurd hlt (by omega)

/-- If no entry from `index` on matches the tag, the `FindMaterial` loop
leaves the caller's record untouched. -/
theorem findMaterialAux_of_none (mats : List OBJECT_MATERIAL)
    (tag : String) (material : OBJECT_MATERIAL) (index : Nat)
    (hnone : ∀ j, (hj : j < mats.length) → index ≤ j →
      (mats.get ⟨j, hj⟩).tag ≠ tag) :
    findMaterialAux mats tag material index = material := by
  induction index using findMaterialAux.induct mats tag material with
  | case1 index h heq =>
    exact absurd heq (hnone index h (le_refl _))
  | case2 index h heq ih =>
    rw [findMaterialAux]
    simp only [h, dif_pos, heq, if_neg, if_false]
    exact ih fun j hj h1 => hnone j hj (by omega)
  | case3 index h =>
    rw [findMaterialAux]
    simp [h]

/-- `CreateGLTexture` changes `m_loadedTextures` by one exactly when the
request succeeds. -/
theorem registerStep_loadedTextures (st : SceneState)
    (req : Option IMAGE_DATA × String) :
    (registerStep st req).loadedTextures =
      st.loadedTextures + (if requestSucceeds req then 1 else 0) := by
  rcases req with ⟨image, tag⟩
  cases image with
  | none => simp [registerStep, CreateGLTexture, requestSucceeds]
  | some img =>
    by_cases h : img.channels = 3 ∨ img.channels = 4 <;>
      simp [registerStep, CreateGLTexture, requestSucceeds, h]

/-- Folding a request list over `registerStep` adds `successCount` to the
filled-slot count. -/
theorem foldl_registerStep_loadedTextures
    (reqs : List (Option IMAGE_DATA × String)) :
    ∀ st : SceneState, (reqs.foldl registerStep st).loadedTextures =
      st.loadedTextures + successCount reqs := by
  induction reqs with
  | nil => intro st; simp [successCount]
  | cons r rs ih =>
    intro st
    rw [List.foldl_cons, ih, registerStep_loadedTextures]
    simp only [successCount, List.countP_cons]
    by_cases h : requestSucceeds r
    · simp [h]
      omega
    · simp [h]

/-- The filled-slot count after a registration run equals the number of
successful registrations performed. -/
theorem runRegistrations_loadedTextures
    (reqs : List (Option IMAGE_DATA × String)) :
    (runRegistrations reqs).loadedTextures = successCount reqs := by
  rw [runRegistrations, foldl_registerStep_loadedTextures]
  simp [initialState]

/-- A successful `CreateGLTexture` writes the tag at index
`m_loadedTextures` and bumps the count. -/
theorem CreateGLTexture_success_tag (img : IMAGE_DATA) (tag : String)
    (st : SceneState) (h : img.channels = 3 ∨ img.channels = 4) :
    (CreateGLTexture (some img) tag st).1 = true ∧
    (((CreateGLTexture (some img) tag st).2.1).textureIDs
      st.loadedTextures).tag = tag ∧
    ((CreateGLTexture (some img) tag st).2.1).loadedTextures =
      st.loadedTextures + 1 := by
  simp [CreateGLTexture, h]

/-!  Claim theorems.  -/

/-- C2: `FindMaterial` returns `found = false` only when the material
list is empty: on every non-empty list it returns `true` for every tag,
and when no entry matches the tag the caller's record comes back exactly
as it went in (stale values untouched). -/
theorem spec_C2 (st : SceneState) (tag : String)
    (material : OBJECT_MATERIAL) (h : st.objectMaterials ≠ []) :
    (FindMaterial st tag material).1 = true ∧
    ((∀ r ∈ st.objectMaterials, r.tag ≠ tag) →
      (FindMaterial st tag material).2 = material) := by
  have hlen : st.objectMaterials.length ≠ 0 := by
    have := List.length_pos.mpr h
    omega
  constructor
  · simp [FindMaterial, hlen]
  · intro hnone
    have hfix : findMaterialAux st.objectMaterials tag material 0 = material := by
      refine findMaterialAux_of_none _ _ _ _ fun j hj _ => ?_
      exact hnone _ (List.get_mem _ j hj)
    simp [FindMaterial, hlen, hfix]

/-- Witness for C2: a one-material list (tag `"wood"`) queried with an
absent tag reports found and leaves the stale record unchanged. -/
theorem spec_C2_witness :
    (FindMaterial
      { initialState true with objectMaterials := [woodMaterial] }
      "missing" staleMaterial).1 = true ∧
    (FindMaterial
      { initialState true with objectMaterials := [woodMaterial] }
      "missing" staleMaterial).2 = staleMaterial :=
  ⟨(spec_C2 _ _ _ (by decide)).1, (spec_C2 _ _ _ (by decide)).2 (by decide)⟩

/-- C4: after any registration run, a further successful registration of
a valid 3-or-4-channel image under tag `t` makes `FindTextureSlot t`
return a non-negative index strictly below the number of successful
registrations performed so far. -/
theorem spec_C4 (reqs : List (Option IMAGE_DATA × String))
    (img : IMAGE_DATA) (tag : String)
    (hvalid : img.channels = 3 ∨ img.channels = 4) :
    0 ≤ FindTextureSlot (runRegistrations (reqs ++ [(some img, tag)])) tag ∧
    FindTextureSlot (runRegistrations (reqs ++ [(some img, tag)])) tag <
      (successCount (reqs ++ [(some img, tag)]) : Int) := by
  have hrun : runRegistrations (reqs ++ [(some img, tag)]) =
      registerStep (runRegistrations reqs) (some img, tag) := by
    simp [runRegistrations, List.foldl_append]
  have hspec :=
    CreateGLTexture_success_tag img tag (runRegistrations reqs) hvalid
  have htag : ((runRegistrations (reqs ++ [(some img, tag)])).textureIDs
      (runRegistrations reqs).loadedTextures).tag = tag := by
    rw [hrun]; exact hspec.2.1
  have hcount :
      (runRegistrations (reqs ++ [(some img, tag)])).loadedTextures =
        (runRegistrations reqs).loadedTextures + 1 := by
    rw [hrun]; exact hspec.2.2
  have hsucc := runRegistrations_loadedTextures (reqs ++ [(some img, tag)])
  rcases findTextureSlotAux_cases
      (runRegistrations (reqs ++ [(some img, tag)])) tag 0 with
    ⟨_, hnone⟩ | ⟨n, hval, _, hlt, _, _⟩
  · exact absurd htag
      (hnone (runRegistrations reqs).loadedTextures (Nat.zero_le _)
        (by omega))
  · have hFS : FindTextureSlot
        (runRegistrations (reqs ++ [(some img, tag)])) tag = (n : Int) :=
      hval
    rw [hFS]
    constructor
    · exact Int.natCast_nonneg n
    · rw [← hsucc]
      exact_mod_cast hlt

/-- Witness for C4: the very first registration (tag `"ground"`, a
3-channel image) yields slot `0 ≤ 0 < 1`. -/
theorem spec_C4_witness :
    0 ≤ FindTextureSlot
      (runRegistrations ([] ++ [(some rgbImage, "ground")])) "ground" ∧
    FindTextureSlot
      (runRegistrations ([] ++ [(some rgbImage, "ground")])) "ground" <
      (successCount ([] ++ [(some rgbImage, "ground")]) : Int) :=
  spec_C4 [] rgbImage "ground" (by decide)

/-- C5: an image decoding with a channel count other than 3 or 4 makes
`CreateGLTexture` return `false` and leaves the filled-slot count and
every texture-slot entry unchanged. -/
theorem spec_C5 (img : IMAGE_DATA) (tag : String) (st : SceneState)
    (h3 : img.channels ≠ 3) (h4 : img.channels ≠ 4) :
    (CreateGLTexture (some img) tag st).1 = false ∧
    ((CreateGLTexture (some img) tag st).2.1).loadedTextures =
      st.loadedTextures ∧
    ((CreateGLTexture (some img) tag st).2.1).textureIDs =
      st.textureIDs := by
  have h : ¬ (img.channels = 3 ∨ img.channels = 4) := by
    intro hc; rcases hc with hc | hc
    · exact h3 hc
    · exact h4 hc
  refine ⟨?_, ?_, ?_⟩ <;> simp [CreateGLTexture, h]

/-- Witness for C5: a 2-channel image is rejected with the registry of a
fresh manager unchanged. -/
theorem spec_C5_witness :
    (CreateGLTexture (some grayImage) "gray"
      (initialState true)).1 = false ∧
    ((CreateGLTexture (some grayImage) "gray"
      (initialState true)).2.1).loadedTextures =
      (initialState true).loadedTextures ∧
    ((CreateGLTexture (some grayImage) "gray"
      (initialState true)).2.1).textureIDs =
      (initialState true).textureIDs :=
  spec_C5 grayImage "gray" (initialState true) (by decide) (by decide)

/-- C6: whenever no filled slot carries the queried tag,
`FindTextureSlot` returns the `-1` sentinel. -/
theorem spec_C6 (st : SceneState) (tag : String)
    (h : ∀ i, i < st.loadedTextures → (st.textureIDs i).tag ≠ tag) :
    FindTextureSlot st tag = -1 := by
  rcases findTextureSlotAux_cases st tag 0 with
    ⟨hval, _⟩ | ⟨n, _, _, hlt, htag, _⟩
  · exact hval
  · exact absurd htag (h n hlt)

/-- Witness for C6: a registry holding `"ground"` and `"wood"` returns
`-1` for `"unregistered-tag"`. -/
theorem spec_C6_witness :
    FindTextureSlot
      (runRegistrations
        [(some rgbImage, "ground"), (some rgbaImage, "wood")])
      "unregistered-tag" = -1 :=
  spec_C6 _ _ (by decide)

/-- C1 (code bug): with the registry already holding 16 textures — its
full capacity — a further `CreateGLTexture` of a valid image does NOT
fail: it returns `true`, bumps the filled count to 17 and writes the new
tag at index 16, one past the end of the 16-element C++ array (an
out-of-bounds write), instead of failing cleanly without appending. -/
theorem spec_C1_eval :
    (runRegistrations capacityRequests).loadedTextures =
      TEXTURE_CAPACITY ∧
    (CreateGLTexture (some rgbImage) "seventeenth"
      (runRegistrations capacityRequests)).1 = true ∧
    ((CreateGLTexture (some rgbImage) "seventeenth"
      (runRegistrations capacityRequests)).2.1).loadedTextures =
      TEXTURE_CAPACITY + 1 ∧
    (((CreateGLTexture (some rgbImage) "seventeenth"
      (runRegistrations capacityRequests)).2.1).textureIDs
      TEXTURE_CAPACITY).tag = "seventeenth" := by
  refine ⟨?_, ?_, ?_, ?_⟩ <;> decide

/-- C3 (code bug): at teardown, for a registry holding two textures,
`DestroyGLTextures` issues two `glGenTextures` calls and ZERO
`glDeleteTextures` calls — it allocates fresh texture names into the
slots (overwriting the stored handles) instead of releasing the GPU
texture objects. -/
theorem spec_C3_eval :
    (runRegistrations
      [(some rgbImage, "ground"),
       (some rgbaImage, "wood")]).loadedTextures = 2 ∧
    (DestroyGLTextures (runRegistrations
      [(some rgbImage, "ground"), (some rgbaImage, "wood")])).2 =
      [GLCall.genTextures, GLCall.genTextures] ∧
    ((DestroyGLTextures (runRegistrations
      [(some rgbImage, "ground"),
       (some rgbaImage, "wood")])).2.filter isDeleteCall) = [] ∧
    ((DestroyGLTextures (runRegistrations
      [(some rgbImage, "ground"),
       (some rgbaImage, "wood")])).1.textureIDs 0).ID ≠
      ((runRegistrations
        [(some rgbImage, "ground"),
         (some rgbaImage, "wood")]).textureIDs 0).ID := by
  refine ⟨by decide, ?_, ?_, ?_⟩ <;>
    simp [DestroyGLTextures, destroyGLTexturesAux, runRegistrations,
      registerStep, CreateGLTexture, initialState, rgbImage, rgbaImage,
      isDeleteCall, List.foldl]

/-- C8: material lookup is first-match-wins under duplicate tags: with
materials tagged `"a"`, `"b"`, `"a"` registered in that order,
`FindMaterial "a"` reports found and copies the FIRST `"a"` record's
five reflectance fields into the caller's record. -/
theorem spec_C8 (m1 m2 m3 stale : OBJECT_MATERIAL)
    (h1 : m1.tag = "a") ( _h2 : m2.tag = "b") ( _h3 : m3.tag = "a")
    (st : SceneState) (hm : st.objectMaterials = [m1, m2, m3]) :
    FindMaterial st "a" stale = (true, copyMaterialFields m1 stale) := by
  have hstep : findMaterialAux [m1, m2, m3] "a" stale 0 =
      copyMaterialFields m1 stale := by
    rw [findMaterialAux]
    simp [h1]
  simp [FindMaterial, hm, hstep]

/-- Witness for C8: three concrete materials tagged `"a"`, `"b"`, `"a"`,
the first and third holding different coefficients; lookup of `"a"`
copies the first record's fields. -/
theorem spec_C8_witness :
    FindMaterial
      { initialState true with objectMaterials :=
          [{ woodMaterial with tag := "a" },
           { woodMaterial with tag := "b" },
           { staleMaterial with tag := "a" }] }
      "a" staleMaterial =
      (true, copyMaterialFields { woodMaterial with tag := "a" }
        staleMaterial) :=
  spec_C8 { woodMaterial with tag := "a" } { woodMaterial with tag := "b" }
    { staleMaterial with tag := "a" } staleMaterial
    (by decide) (by decide) (by decide)
    { initialState true with objectMaterials :=
        [{ woodMaterial with tag := "a" },
         { woodMaterial with tag := "b" },
         { staleMaterial with tag := "a" }] }
    (by decide)

/-- C9: `FindTextureSlot` and `FindTextureID` scan the same filled
prefix with first-match-wins, so (for any registry whose filled slots
hold real GL names, never the `-1` sentinel — true of every reachable
state) one returns `-1` exactly when the other does, and when
`FindTextureSlot` returns index `n`, `FindTextureID` returns the handle
stored in slot `n`. -/
theorem spec_C9 (st : SceneState) (tag : String)
    (hIDs : ∀ i, i < st.loadedTextures → (st.textureIDs i).ID ≠ -1) :
    (FindTextureSlot st tag = -1 ↔ FindTextureID st tag = -1) ∧
    (∀ n : Nat, FindTextureSlot st tag = (n : Int) →
      FindTextureID st tag = (st.textureIDs n).ID) := by
  rcases findTextureSlotAux_cases st tag 0 with
    ⟨hval, hnone⟩ | ⟨n, hval, _, hlt, htag, hfirst⟩
  · have hid : FindTextureID st tag = -1 :=
      findTextureIDAux_of_slot_none st tag 0 fun i h1 h2 => hnone i h1 h2
    have hslot : FindTextureSlot st tag = -1 := hval
    refine ⟨by simp [hslot, hid], fun m hm => ?_⟩
    rw [hslot] at hm
    omega
  · have hid : FindTextureID st tag = (st.textureIDs n).ID :=
      findTextureIDAux_of_slot_found st tag 0 n (Nat.zero_le _) hlt htag
        fun i h1 h2 => hfirst i h1 h2
    have hslot : FindTextureSlot st tag = (n : Int) := hval
    constructor
    · constructor
      · intro hcontr
        rw [hslot] at hcontr
        omega
      · intro hcontr
        rw [hid] at hcontr
        exact absurd hcontr (hIDs n hlt)
    · intro m hm
      rw [hslot] at hm
      have hnm : n = m := by exact_mod_cast hm
      rw [hid, hnm]

/-- Witness for C9: with `"ground"` in slot 0 and `"wood"` in slot 1,
both lookups agree on `"wood"`, and `FindTextureID` returns the handle
stored in slot 1. -/
theorem spec_C9_witness :
    (FindTextureSlot
        (runRegistrations
          [(some rgbImage, "ground"), (some rgbaImage, "wood")])
        "wood" = -1 ↔
      FindTextureID
        (runRegistrations
          [(some rgbImage, "ground"), (some rgbaImage, "wood")])
        "wood" = -1) ∧
    FindTextureID
      (runRegistrations
        [(some rgbImage, "ground"), (some rgbaImage, "wood")])
      "wood" =
      ((runRegistrations
        [(some rgbImage, "ground"), (some rgbaImage, "wood")]).textureIDs
        1).ID :=
  ⟨(spec_C9 _ _ (by decide)).1,
   (spec_C9 _ _ (by decide)).2 1
     (by
       simp [FindTextureSlot, findTextureSlotAux, runRegistrations,
         registerStep, CreateGLTexture, initialState, rgbImage, rgbaImage,
         List.foldl])⟩

/-- C10: when the shader-manager pointer is null, `SetTransformations`,
`SetShaderColor`, `SetShaderTexture` and `SetTextureUVScale` each push
no uniform and return with the whole state (texture table, filled count,
material list) unchanged. -/
theorem spec_C10 {K : Type} [Field K] (co se : K → K) (pi : K)
    (scaleXYZ positionXYZ : K × K × K) (xr yr zr : K)
    (r g b a u v : K) (textureTag : String)
    (st : SceneState) (h : st.hasShader = false) :
    SetTransformations co se pi scaleXYZ xr yr zr positionXYZ st =
      (st, []) ∧
    SetShaderColor r g b a st = (st, []) ∧
    SetShaderTexture textureTag st = (st, ([] : List (ShaderWrite K))) ∧
    SetTextureUVScale u v st = (st, []) := by
  refine ⟨?_, ?_, ?_, ?_⟩ <;>
    simp [SetTransformations, SetShaderColor, SetShaderTexture,
      SetTextureUVScale, h]

/-- Witness for C10: a manager constructed with a null shader pointer
ignores all four setters. -/
theorem spec_C10_witness :
    SetTransformations (id : ℚ → ℚ) id 0 (1, 1, 1) 0 0 0 (0, 0, 0)
      (initialState false) = (initialState false, []) ∧
    SetShaderColor (1 : ℚ) 0 0 1 (initialState false) =
      (initialState false, []) ∧
    SetShaderTexture "ground" (initialState false) =
      (initialState false, ([] : List (ShaderWrite ℚ))) ∧
    SetTextureUVScale (1 : ℚ) 1 (initialState false) =
      (initialState false, []) :=
  spec_C10 id id 0 (1, 1, 1) (0, 0, 0) 0 0 0 1 0 0 1 1 1 "ground"
    (initialState false) rfl

/-- `glm::scale` at `(1,1,1)` is the identity matrix. -/
theorem glmScale_one {K : Type} [Field K] :
    glmScale (1 : K × K × K) = 1 := by
  unfold glmScale
  rw [show (![((1 : K × K × K)).1, (1 : K × K × K).2.1,
      (1 : K × K × K).2.2, 1]) = fun _ => (1 : K) from by
    funext i; fin_cases i <;> rfl]
  exact Matrix.diagonal_one

/-- `glm::translate` at `(0,0,0)` is the identity matrix. -/
theorem glmTranslate_zero {K : Type} [Field K] :
    glmTranslate (0 : K × K × K) = 1 := by
  unfold glmTranslate
  ext i j
  fin_cases i <;> fin_cases j <;>
    simp [Matrix.one_apply, Matrix.vecHead, Matrix.vecTail]

/-- Rotation about X with cosine 1 and sine 0 is the identity matrix. -/
theorem glmRotateX_id {K : Type} [Field K] :
    glmRotateX (1 : K) 0 = 1 := by
  unfold glmRotateX
  ext i j
  fin_cases i <;> fin_cases j <;>
    simp [Matrix.one_apply, Matrix.vecHead, Matrix.vecTail]

/-- Rotation about Y with cosine 1 and sine 0 is the identity matrix. -/
theorem glmRotateY_id {K : Type} [Field K] :
    glmRotateY (1 : K) 0 = 1 := by
  unfold glmRotateY
  ext i j
  fin_cases i <;> fin_cases j <;>
    simp [Matrix.one_apply, Matrix.vecHead, Matrix.vecTail]

/-- Rotation about Z with cosine 1 and sine 0 is the identity matrix. -/
theorem glmRotateZ_id {K : Type} [Field K] :
    glmRotateZ (1 : K) 0 = 1 := by
  unfold glmRotateZ
  ext i j
  fin_cases i <;> fin_cases j <;>
    simp [Matrix.one_apply, Matrix.vecHead, Matrix.vecTail]

/-- C7: `SetTransformations` pushes the model matrix composed as
`translation * rotateX * rotateY * rotateZ * scale`, with each rotation
taken at the degree argument converted to radians, for every input; in
particular at scale `(1,1,1)`, rotations `(0,0,0)` and translation
`(0,0,0)` the pushed matrix is the identity.  (`co`/`se` are the cosine
and sine of the scalar model; any instantiation with `co 0 = 1` and
`se 0 = 0`, e.g. the real cosine and sine, satisfies the hypotheses.) -/
theorem spec_C7 {K : Type} [Field K] (co se : K → K) (pi : K)
    (hc : co 0 = 1) (hs : se 0 = 0) (st : SceneState)
    (hsh : st.hasShader = true) :
    (∀ (scaleXYZ positionXYZ : K × K × K) (xr yr zr : K),
      (SetTransformations co se pi scaleXYZ xr yr zr positionXYZ st).2 =
        [ShaderWrite.mat4Value "model"
          (glmTranslate positionXYZ *
            glmRotateX (co (glmRadians pi xr)) (se (glmRadians pi xr)) *
            glmRotateY (co (glmRadians pi yr)) (se (glmRadians pi yr)) *
            glmRotateZ (co (glmRadians pi zr)) (se (glmRadians pi zr)) *
            glmScale scaleXYZ)]) ∧
    (SetTransformations co se pi (1, 1, 1) 0 0 0 (0, 0, 0) st).2 =
      [ShaderWrite.mat4Value "model" (1 : Matrix (Fin 4) (Fin 4) K)] := by
  have hrad : glmRadians pi (0 : K) = 0 := by
    unfold glmRadians
    ring
  constructor
  · intro scaleXYZ positionXYZ xr yr zr
    simp [SetTransformations, hsh]
  · simp [SetTransformations, hsh, hrad, hc, hs, glmRotateX_id,
      glmRotateY_id, glmRotateZ_id, glmScale_one, glmTranslate_zero]

/-- Witness for C7: with real cosine/sine and `π`, the matrix pushed for
scale `(1,1,1)`, rotations `(0,0,0)`, translation `(0,0,0)` is the
identity. -/
theorem spec_C7_witness :
    (SetTransformations Real.cos Real.sin Real.pi
      ((1 : ℝ), 1, 1) 0 0 0 (0, 0, 0) (initialState true)).2 =
      [ShaderWrite.mat4Value "model" (1 : Matrix (Fin 4) (Fin 4) ℝ)] :=
  (spec_C7 Real.cos Real.sin Real.pi Real.cos_zero Real.sin_zero
    (initialState true) rfl).2
